import Mathlib

/-!
Verification of the card-catalogue query store (stores/card.js).

The store is embedded shallowly: the Pinia state object becomes the
structure `CardState`, each async action becomes a pure function that
takes the current state together with an HTTP oracle
(`Request → Except String resp`, modelling the axios promise that either
resolves with `response.data` or rejects) and returns the updated state
and the value the action returns to its caller.  The runtime-config API
key getter becomes an explicit `apiKey : String` parameter.
-/

/-- A card record, opaque to the store (passed through unmodified). -/
structure Card where
  id : String
deriving Repr, DecidableEq

/-- Shape of the `/cards` response payload (`response.data`):
cards, `totalCount` and `count`.  The element type is a parameter,
since the store treats card records as opaque. -/
structure CatalogPage (κ : Type) where
  data : List κ
  totalCount : Nat
  count : Nat
deriving Repr, DecidableEq

/-- Shape of the `/sets`, `/rarities` and `/types` response payloads:
a single `data` list whose element type is opaque to the store. -/
structure ListPayload (α : Type) where
  data : List α
deriving Repr, DecidableEq

/-- An outgoing HTTP request: the path handed to `apiClient.get` and the
headers object. -/
structure Request where
  path : String
  headers : List (String × String)
deriving Repr, DecidableEq

/-- The Pinia store state from `state: () => ({...})` in stores/card.js. -/
structure CardState where
  cards : List Card
  isLoading : Bool
  name : String
  set : String
  rarity : String
  type : String
deriving Repr, DecidableEq

/-- The initial state produced by the `state` thunk. -/
def initialState : CardState :=
  { cards := [], isLoading := false, name := "", set := "", rarity := "", type := "" }

/-- JavaScript `v.replaceAll(" ", "*")`: every space character of the
string is replaced by an asterisk (for a one-character pattern,
`replaceAll` is exactly a character map). -/
def replaceAllStar (v : String) : String :=
  String.mk (v.data.map (fun c => if c = ' ' then '*' else c))

/-- The clause pushed for a truthy `name` filter. -/
def nameClause (v : String) : String :=
  "name:" ++ replaceAllStar v ++ "*"

/-- The clause pushed for a truthy `set` filter. -/
def setClause (v : String) : String :=
  "set.name:" ++ replaceAllStar v ++ "*"

/-- The clause pushed for a truthy `rarity` filter. -/
def rarityClause (v : String) : String :=
  "rarity:" ++ replaceAllStar v ++ "*"

/-- The clause pushed for a truthy `type` filter (no trailing wildcard). -/
def typeClause (v : String) : String :=
  "types:" ++ replaceAllStar v

/-- The `pathQuery` array built by `select`: starting from `[]`, each of
the four `if (filter) pathQuery.push(...)` statements appends its clause
when the filter is a non-empty (truthy) string. -/
def selectClauses (name set rarity type : String) : List String :=
  let q : List String := []
  let q := if name = "" then q else q ++ [nameClause name]
  let q := if set = "" then q else q ++ [setClause set]
  let q := if rarity = "" then q else q ++ [rarityClause rarity]
  let q := if type = "" then q else q ++ [typeClause type]
  q

/-- The request path built by `select`: the pagination template
followed, when `pathQuery.length > 0`, by `q=` and the clauses joined
with the literal separator. -/
def selectPath (page pageSize : Nat) (name set rarity type : String) : String :=
  let base := "/cards?page=" ++ toString page ++ "&pageSize=" ++ toString pageSize ++ "&"
  let q := selectClauses name set rarity type
  if q.length > 0 then base ++ "q=" ++ String.intercalate " AND " q else base

/-- The filter-echo assignments of `select`: inside each truthiness
check, the raw filter value is written to the corresponding state field. -/
def selectRecordFilters (st : CardState) (name set rarity type : String) : CardState :=
  let st := if name = "" then st else { st with name := name }
  let st := if set = "" then st else { st with set := set }
  let st := if rarity = "" then st else { st with rarity := rarity }
  let st := if type = "" then st else { st with type := type }
  st

/-- `this.isLoading = true`, performed by every action before its call. -/
def loadingOn (st : CardState) : CardState :=
  { st with isLoading := true }

/-- The state of the store at the moment `select` issues its request:
loading flag raised, specified filters echoed. -/
def selectPre (st : CardState) (name set rarity type : String) : CardState :=
  selectRecordFilters (loadingOn st) name set rarity type

/-- The request `select` hands to `apiClient.get`: the constructed path
plus the `X-Api-Key` header. -/
def selectRequest (apiKey : String) (page pageSize : Nat)
    (name set rarity type : String) : Request :=
  { path := selectPath page pageSize name set rarity type,
    headers := [("X-Api-Key", apiKey)] }

/-- The `select` action.  It raises the loading flag, echoes the
specified filters, issues the request, and returns `response.data` on
success or the canonical empty page on any error; the `finally` block
lowers the loading flag on both paths. -/
def select {κ : Type} (apiKey : String)
    (http : Request → Except String (CatalogPage κ)) (st : CardState)
    (page pageSize : Nat) (name set rarity type : String) :
    CardState × CatalogPage κ :=
  let stIn := selectPre st name set rarity type
  match http (selectRequest apiKey page pageSize name set rarity type) with
  | Except.ok resp => ({ stIn with isLoading := false }, resp)
  | Except.error _ =>
      ({ stIn with isLoading := false }, { data := [], totalCount := 0, count := 0 })

/-- The fixed request of `getSet`. -/
def setsRequest (apiKey : String) : Request :=
  { path := "/sets", headers := [("X-Api-Key", apiKey)] }

/-- The fixed request of `getRarity`. -/
def raritiesRequest (apiKey : String) : Request :=
  { path := "/rarities", headers := [("X-Api-Key", apiKey)] }

/-- The fixed request of `getType`. -/
def typesRequest (apiKey : String) : Request :=
  { path := "/types", headers := [("X-Api-Key", apiKey)] }

/-- The `getSet` action: GET `/sets`, returning the payload on success
and `{ data: [] }` on any error, with the same loading-flag discipline. -/
def getSet {α : Type} (apiKey : String)
    (http : Request → Except String (ListPayload α)) (st : CardState) :
    CardState × ListPayload α :=
  let stIn := loadingOn st
  match http (setsRequest apiKey) with
  | Except.ok resp => ({ stIn with isLoading := false }, resp)
  | Except.error _ => ({ stIn with isLoading := false }, { data := [] })

/-- The `getRarity` action: GET `/rarities`, same shape as `getSet`. -/
def getRarity {α : Type} (apiKey : String)
    (http : Request → Except String (ListPayload α)) (st : CardState) :
    CardState × ListPayload α :=
  let stIn := loadingOn st
  match http (raritiesRequest apiKey) with
  | Except.ok resp => ({ stIn with isLoading := false }, resp)
  | Except.error _ => ({ stIn with isLoading := false }, { data := [] })

/-- The `getType` action: GET `/types`, same shape as `getSet`. -/
def getType {α : Type} (apiKey : String)
    (http : Request → Except String (ListPayload α)) (st : CardState) :
    CardState × ListPayload α :=
  let stIn := loadingOn st
  match http (typesRequest apiKey) with
  | Except.ok resp => ({ stIn with isLoading := false }, resp)
  | Except.error _ => ({ stIn with isLoading := false }, { data := [] })

/-- The four filter checks of `select` are independent, so the built
`pathQuery` array is the concatenation, in source order, of the
singleton clause lists of the truthy filters. -/
theorem selectClauses_eq (name set rarity type : String) :
    selectClauses name set rarity type =
      (if name = "" then [] else [nameClause name]) ++
        (if set = "" then [] else [setClause set]) ++
        (if rarity = "" then [] else [rarityClause rarity]) ++
        (if type = "" then [] else [typeClause type]) := by
  unfold selectClauses
  split_ifs <;> simp

/-- The filter-echo assignments written out field by field. -/
theorem selectRecordFilters_eq (st : CardState) (name set rarity type : String) :
    selectRecordFilters st name set rarity type =
      { st with
        name := if name = "" then st.name else name,
        set := if set = "" then st.set else set,
        rarity := if rarity = "" then st.rarity else rarity,
        type := if type = "" then st.type else type } := by
  unfold selectRecordFilters
  split_ifs <;> rfl

/-- The state `select` leaves behind: the in-flight state with the
loading flag lowered again, on both the success and the error branch. -/
theorem select_fst {κ : Type} (apiKey : String)
    (http : Request → Except String (CatalogPage κ)) (st : CardState)
    (page pageSize : Nat) (name set rarity type : String) :
    (select apiKey http st page pageSize name set rarity type).1 =
      { selectPre st name set rarity type with isLoading := false } := by
  unfold select
  cases http (selectRequest apiKey page pageSize name set rarity type) <;> rfl

/-- C1: each specified non-empty filter of `select` is turned into its
field-specific clause with every internal space replaced by the wildcard
character: `name`, `set` and `rarity` clauses carry exactly one trailing
wildcard appended after the space replacement, the `type` clause carries
none; in particular the filter name = "pika chu" produces exactly the
clause "name:pika*chu*". -/
theorem select_filter_clause_shapes (name set rarity type : String)
    (hn : name ≠ "") (hs : set ≠ "") (hr : rarity ≠ "") (ht : type ≠ "") :
    ("name:" ++ replaceAllStar name ++ "*") ∈ selectClauses name set rarity type ∧
    ("set.name:" ++ replaceAllStar set ++ "*") ∈ selectClauses name set rarity type ∧
    ("rarity:" ++ replaceAllStar rarity ++ "*") ∈ selectClauses name set rarity type ∧
    ("types:" ++ replaceAllStar type) ∈ selectClauses name set rarity type ∧
    selectClauses "pika chu" "" "" "" = ["name:pika*chu*"] := by
  refine ⟨?_, ?_, ?_, ?_, by decide⟩ <;>
    simp [selectClauses_eq, hn, hs, hr, ht,
      nameClause, setClause, rarityClause, typeClause]

theorem select_filter_clause_shapes_witness :
    (("a b" : String) ≠ "" ∧ ("c" : String) ≠ "" ∧
      ("d" : String) ≠ "" ∧ ("e f" : String) ≠ "") ∧
    (("name:" ++ replaceAllStar "a b" ++ "*") ∈ selectClauses "a b" "c" "d" "e f" ∧
      ("set.name:" ++ replaceAllStar "c" ++ "*") ∈ selectClauses "a b" "c" "d" "e f" ∧
      ("rarity:" ++ replaceAllStar "d" ++ "*") ∈ selectClauses "a b" "c" "d" "e f" ∧
      ("types:" ++ replaceAllStar "e f") ∈ selectClauses "a b" "c" "d" "e f" ∧
      selectClauses "pika chu" "" "" "" = ["name:pika*chu*"]) :=
  ⟨⟨by decide, by decide, by decide, by decide⟩,
    select_filter_clause_shapes "a b" "c" "d" "e f"
      (by decide) (by decide) (by decide) (by decide)⟩

/-- C3: an empty filter contributes no clause (the clause count is
exactly the number of non-empty filters), and with all filters empty and
the default pagination the path is exactly the bare pagination template,
with no q parameter appended. -/
theorem empty_filters_omitted (name set rarity type : String) :
    (selectClauses name set rarity type).length =
      (if name = "" then 0 else 1) + (if set = "" then 0 else 1) +
        (if rarity = "" then 0 else 1) + (if type = "" then 0 else 1) ∧
    selectPath 0 0 "" "" "" "" = "/cards?page=0&pageSize=0&" := by
  constructor
  · rw [selectClauses_eq]
    split_ifs <;> simp
  · decide

/-- C4: whenever at least two filters are specified, the clauses appear
in the fixed source order name, set, rarity, type (restricted to those
present) and are joined with the separator " AND " into a single q
parameter appended to the pagination template. -/
theorem clause_order_and_join (page pageSize : Nat) (name set rarity type : String)
    (h : 2 ≤ (selectClauses name set rarity type).length) :
    selectClauses name set rarity type =
      (if name = "" then [] else [nameClause name]) ++
        (if set = "" then [] else [setClause set]) ++
        (if rarity = "" then [] else [rarityClause rarity]) ++
        (if type = "" then [] else [typeClause type]) ∧
    selectPath page pageSize name set rarity type =
      ("/cards?page=" ++ toString page ++ "&pageSize=" ++ toString pageSize ++ "&") ++
        "q=" ++ String.intercalate " AND " (selectClauses name set rarity type) := by
  refine ⟨selectClauses_eq name set rarity type, ?_⟩
  have hlen : (selectClauses name set rarity type).length > 0 := by omega
  unfold selectPath
  rw [if_pos hlen]

theorem clause_order_and_join_witness :
    2 ≤ (selectClauses "pika chu" "base" "" "holo").length ∧
    (selectClauses "pika chu" "base" "" "holo" =
        (if ("pika chu" : String) = "" then [] else [nameClause "pika chu"]) ++
          (if ("base" : String) = "" then [] else [setClause "base"]) ++
          (if ("" : String) = "" then [] else [rarityClause ""]) ++
          (if ("holo" : String) = "" then [] else [typeClause "holo"]) ∧
      selectPath 3 7 "pika chu" "base" "" "holo" =
        ("/cards?page=" ++ toString (3 : Nat) ++ "&pageSize=" ++ toString (7 : Nat) ++ "&") ++
          "q=" ++ String.intercalate " AND " (selectClauses "pika chu" "base" "" "holo")) :=
  ⟨by decide, clause_order_and_join 3 7 "pika chu" "base" "" "holo" (by decide)⟩

/-- C2: when the HTTP call rejects, `select` returns exactly the
canonical empty page and each of the three list actions returns exactly
the empty list payload; all four operations are total functions, so the
underlying error is never re-raised to the caller. -/
theorem failure_returns_empty_fallback {κ α : Type} (apiKey : String)
    (httpC : Request → Except String (CatalogPage κ))
    (httpL : Request → Except String (ListPayload α)) (st : CardState)
    (page pageSize : Nat) (name set rarity type : String) (e eS eR eT : String)
    (hC : httpC (selectRequest apiKey page pageSize name set rarity type) = Except.error e)
    (hS : httpL (setsRequest apiKey) = Except.error eS)
    (hR : httpL (raritiesRequest apiKey) = Except.error eR)
    (hT : httpL (typesRequest apiKey) = Except.error eT) :
    (select apiKey httpC st page pageSize name set rarity type).2 =
      { data := [], totalCount := 0, count := 0 } ∧
    (getSet apiKey httpL st).2 = { data := [] } ∧
    (getRarity apiKey httpL st).2 = { data := [] } ∧
    (getType apiKey httpL st).2 = { data := [] } := by
  unfold select getSet getRarity getType
  rw [hC, hS, hR, hT]
  exact ⟨rfl, rfl, rfl, rfl⟩

theorem failure_returns_empty_fallback_witness :
    (select "k" (fun _ => (Except.error "net" : Except String (CatalogPage Nat)))
        initialState 0 0 "a" "" "" "").2 =
      { data := [], totalCount := 0, count := 0 } ∧
    (getSet "k" (fun _ => (Except.error "net" : Except String (ListPayload Nat)))
        initialState).2 = { data := [] } ∧
    (getRarity "k" (fun _ => (Except.error "net" : Except String (ListPayload Nat)))
        initialState).2 = { data := [] } ∧
    (getType "k" (fun _ => (Except.error "net" : Except String (ListPayload Nat)))
        initialState).2 = { data := [] } :=
  failure_returns_empty_fallback "k"
    (fun _ => (Except.error "net" : Except String (CatalogPage Nat)))
    (fun _ => (Except.error "net" : Except String (ListPayload Nat)))
    initialState 0 0 "a" "" "" "" "net" "net" "net" "net" rfl rfl rfl rfl

/-- C5: every action raises the loading flag before issuing its request
(the in-flight state has `isLoading = true`) and lowers it on
resolution, so `isLoading` ends `false` on both the success path and the
failure path of every call. -/
theorem loading_flag_lifecycle {κ α : Type} (apiKey : String)
    (httpC : Request → Except String (CatalogPage κ))
    (httpL : Request → Except String (ListPayload α)) (st : CardState)
    (page pageSize : Nat) (name set rarity type : String) :
    (selectPre st name set rarity type).isLoading = true ∧
    (select apiKey httpC st page pageSize name set rarity type).1.isLoading = false ∧
    (loadingOn st).isLoading = true ∧
    (getSet apiKey httpL st).1.isLoading = false ∧
    (getRarity apiKey httpL st).1.isLoading = false ∧
    (getType apiKey httpL st).1.isLoading = false := by
  refine ⟨?_, ?_, rfl, ?_, ?_, ?_⟩
  · simp [selectPre, selectRecordFilters_eq, loadingOn]
  · rw [select_fst]
  · unfold getSet
    cases httpL (setsRequest apiKey) <;> rfl
  · unfold getRarity
    cases httpL (raritiesRequest apiKey) <;> rfl
  · unfold getType
    cases httpL (typesRequest apiKey) <;> rfl

/-- C6: each specified non-empty filter of `select` has its raw,
untransformed value stored into the corresponding state field, for every
HTTP oracle, hence regardless of whether the request succeeds or fails. -/
theorem select_records_raw_filters {κ : Type} (apiKey : String)
    (http : Request → Except String (CatalogPage κ)) (st : CardState)
    (page pageSize : Nat) (name set rarity type : String)
    (hn : name ≠ "") (hs : set ≠ "") (hr : rarity ≠ "") (ht : type ≠ "") :
    (select apiKey http st page pageSize name set rarity type).1.name = name ∧
    (select apiKey http st page pageSize name set rarity type).1.set = set ∧
    (select apiKey http st page pageSize name set rarity type).1.rarity = rarity ∧
    (select apiKey http st page pageSize name set rarity type).1.type = type := by
  simp only [select_fst]
  simp [selectPre, selectRecordFilters_eq, loadingOn, hn, hs, hr, ht]

theorem select_records_raw_filters_witness :
    (("a b" : String) ≠ "" ∧ ("c" : String) ≠ "" ∧
      ("d" : String) ≠ "" ∧ ("e" : String) ≠ "") ∧
    ((select "k" (fun _ => (Except.error "net" : Except String (CatalogPage Nat)))
        initialState 1 2 "a b" "c" "d" "e").1.name = "a b" ∧
      (select "k" (fun _ => (Except.error "net" : Except String (CatalogPage Nat)))
        initialState 1 2 "a b" "c" "d" "e").1.set = "c" ∧
      (select "k" (fun _ => (Except.error "net" : Except String (CatalogPage Nat)))
        initialState 1 2 "a b" "c" "d" "e").1.rarity = "d" ∧
      (select "k" (fun _ => (Except.error "net" : Except String (CatalogPage Nat)))
        initialState 1 2 "a b" "c" "d" "e").1.type = "e") :=
  ⟨⟨by decide, by decide, by decide, by decide⟩,
    select_records_raw_filters "k"
      (fun _ => (Except.error "net" : Except String (CatalogPage Nat)))
      initialState 1 2 "a b" "c" "d" "e"
      (by decide) (by decide) (by decide) (by decide)⟩

/-- C7: each of the four operations issues its request with the
configured API key attached as the `X-Api-Key` header; consequently each
operation is insensitive to how its HTTP oracle behaves on requests that
do not carry that header. -/
theorem api_key_header_on_every_request {κ α : Type} (apiKey : String)
    (page pageSize : Nat) (name set rarity type : String) (st : CardState)
    (httpC httpC₂ : Request → Except String (CatalogPage κ))
    (httpL httpL₂ : Request → Except String (ListPayload α))
    (hC : ∀ req, ("X-Api-Key", apiKey) ∈ req.headers → httpC req = httpC₂ req)
    (hL : ∀ req, ("X-Api-Key", apiKey) ∈ req.headers → httpL req = httpL₂ req) :
    ("X-Api-Key", apiKey) ∈ (selectRequest apiKey page pageSize name set rarity type).headers ∧
    ("X-Api-Key", apiKey) ∈ (setsRequest apiKey).headers ∧
    ("X-Api-Key", apiKey) ∈ (raritiesRequest apiKey).headers ∧
    ("X-Api-Key", apiKey) ∈ (typesRequest apiKey).headers ∧
    select apiKey httpC st page pageSize name set rarity type =
      select apiKey httpC₂ st page pageSize name set rarity type ∧
    getSet apiKey httpL st = getSet apiKey httpL₂ st ∧
    getRarity apiKey httpL st = getRarity apiKey httpL₂ st ∧
    getType apiKey httpL st = getType apiKey httpL₂ st := by
  refine ⟨by simp [selectRequest], by simp [setsRequest], by simp [raritiesRequest],
    by simp [typesRequest], ?_, ?_, ?_, ?_⟩
  · unfold select
    rw [hC _ (by simp [selectRequest])]
  · unfold getSet
    rw [hL _ (by simp [setsRequest])]
  · unfold getRarity
    rw [hL _ (by simp [raritiesRequest])]
  · unfold getType
    rw [hL _ (by simp [typesRequest])]

theorem api_key_header_on_every_request_witness :
    ("X-Api-Key", "k") ∈ (selectRequest "k" 0 0 "a" "" "" "").headers ∧
    ("X-Api-Key", "k") ∈ (setsRequest "k").headers ∧
    ("X-Api-Key", "k") ∈ (raritiesRequest "k").headers ∧
    ("X-Api-Key", "k") ∈ (typesRequest "k").headers ∧
    select "k" (fun _ => (Except.error "net" : Except String (CatalogPage Nat)))
        initialState 0 0 "a" "" "" "" =
      select "k" (fun _ => (Except.error "net" : Except String (CatalogPage Nat)))
        initialState 0 0 "a" "" "" "" ∧
    getSet "k" (fun _ => (Except.error "net" : Except String (ListPayload Nat)))
        initialState =
      getSet "k" (fun _ => (Except.error "net" : Except String (ListPayload Nat)))
        initialState ∧
    getRarity "k" (fun _ => (Except.error "net" : Except String (ListPayload Nat)))
        initialState =
      getRarity "k" (fun _ => (Except.error "net" : Except String (ListPayload Nat)))
        initialState ∧
    getType "k" (fun _ => (Except.error "net" : Except String (ListPayload Nat)))
        initialState =
      getType "k" (fun _ => (Except.error "net" : Except String (ListPayload Nat)))
        initialState :=
  api_key_header_on_every_request "k" 0 0 "a" "" "" "" initialState
    (fun _ => (Except.error "net" : Except String (CatalogPage Nat)))
    (fun _ => (Except.error "net" : Except String (CatalogPage Nat)))
    (fun _ => (Except.error "net" : Except String (ListPayload Nat)))
    (fun _ => (Except.error "net" : Except String (ListPayload Nat)))
    (fun _ _ => rfl) (fun _ _ => rfl)

/-- C8: a filter left unspecified (empty) in a call to `select` leaves
the corresponding state field untouched, so the echo of an earlier call
is retained rather than cleared. -/
theorem select_empty_filter_frame {κ : Type} (apiKey : String)
    (http : Request → Except String (CatalogPage κ)) (st : CardState)
    (page pageSize : Nat) (name set rarity type : String) :
    (select apiKey http st page pageSize "" set rarity type).1.name = st.name ∧
    (select apiKey http st page pageSize name "" rarity type).1.set = st.set ∧
    (select apiKey http st page pageSize name set "" type).1.rarity = st.rarity ∧
    (select apiKey http st page pageSize name set rarity "").1.type = st.type := by
  simp only [select_fst]
  simp [selectPre, selectRecordFilters_eq, loadingOn]

/-- C9: no operation ever writes the `cards` state field: every call
leaves it exactly as it was, and it starts as the empty array, so it
stays the empty array for the whole lifetime of the store. -/
theorem cards_never_mutated {κ α : Type} (apiKey : String)
    (httpC : Request → Except String (CatalogPage κ))
    (httpL : Request → Except String (ListPayload α)) (st : CardState)
    (page pageSize : Nat) (name set rarity type : String) :
    initialState.cards = [] ∧
    (select apiKey httpC st page pageSize name set rarity type).1.cards = st.cards ∧
    (getSet apiKey httpL st).1.cards = st.cards ∧
    (getRarity apiKey httpL st).1.cards = st.cards ∧
    (getType apiKey httpL st).1.cards = st.cards := by
  refine ⟨rfl, ?_, ?_, ?_, ?_⟩
  · rw [select_fst]
    simp [selectPre, selectRecordFilters_eq, loadingOn]
  · unfold getSet
    cases httpL (setsRequest apiKey) <;> rfl
  · unfold getRarity
    cases httpL (raritiesRequest apiKey) <;> rfl
  · unfold getType
    cases httpL (typesRequest apiKey) <;> rfl

/-- C10: the request path of `select` is computed from the six call
arguments alone: `selectRequest` carries exactly `selectPath` of those
arguments, and the value returned to the caller is identical across any
two prior store states. -/
theorem select_request_state_independent {κ : Type} (apiKey : String)
    (http : Request → Except String (CatalogPage κ)) (st₁ st₂ : CardState)
    (page pageSize : Nat) (name set rarity type : String) :
    (selectRequest apiKey page pageSize name set rarity type).path =
      selectPath page pageSize name set rarity type ∧
    (select apiKey http st₁ page pageSize name set rarity type).2 =
      (select apiKey http st₂ page pageSize name set rarity type).2 := by
  refine ⟨rfl, ?_⟩
  unfold select
  cases http (selectRequest apiKey page pageSize name set rarity type) <;> rfl
